import Mathlib

/-!
Shallow embedding of the Mzone backend (src/server.js): the plan/discount
catalogs, the pricing step of POST /payment/initialize, the reconciliation
performed by GET /payment/verify/:reference and POST /payment/webhook, and
the JavaScript `Date` calendar arithmetic those handlers use. Gateway and
database interactions are modelled by passing the gateway response and the
database state explicitly; the Supabase client reports query failures as
returned error values (it does not throw), which the webhook handler
ignores, so store failures are modelled as boolean flags.
-/

namespace MZone

/-! ## JavaScript string helpers -/

/-- Does the character list `s` start with the character list `pat`? -/
def listStartsWith : List Char → List Char → Bool
  | _, [] => true
  | [], _ :: _ => false
  | c :: cs, d :: ds => c == d && listStartsWith cs ds

/-- Index of the first occurrence of `pat` in `s`, if any. -/
def listFindSub : List Char → List Char → Option Nat
  | [], pat => if pat.isEmpty then some 0 else none
  | c :: rest, pat =>
    if listStartsWith (c :: rest) pat then some 0
    else (listFindSub rest pat).map (· + 1)

/-- Models JavaScript `s.includes(pat)`. -/
def strContains (s pat : String) : Bool :=
  (listFindSub s.data pat.data).isSome

/-- Models JavaScript `s.replace(pat, '')` with a string pattern: only the
first occurrence of `pat` is removed (source line 292 strips the
`_discounted` suffix this way). -/
def replaceFirst (s pat : String) : String :=
  match listFindSub s.data pat.data with
  | some i => ⟨s.data.take i ++ s.data.drop (i + pat.data.length)⟩
  | none => s

/-- Models JavaScript `s.toUpperCase()`; all code points used by the program
are ASCII, where it coincides with per-character upper-casing. -/
def jsToUpper (s : String) : String :=
  ⟨s.data.map Char.toUpper⟩

/-! ## JavaScript Date calendar arithmetic

The handlers compute `endDate` with `Date.setFullYear(y+1)` or
`Date.setMonth(m+1)`. A JS `Date` normalizes out-of-range day numbers by
rolling over into the following month (e.g. Jan 31 `setMonth(+1)` gives
Mar 3 in a common year). Only the calendar-date part matters here; months
are 0-based as in JavaScript. -/

structure Date where
  year : Int
  month : Nat
  day : Nat
deriving DecidableEq, Repr

/-- Gregorian leap year test, as JavaScript `Date` uses. -/
def isLeap (y : Int) : Bool :=
  (y % 4 == 0 && y % 100 != 0) || y % 400 == 0

/-- Days in 0-based month `m` of year `y` (1 = February, 3 = April, ...). -/
def daysInMonth (y : Int) (m : Nat) : Nat :=
  if m = 1 then (if isLeap y then 29 else 28)
  else if m = 3 ∨ m = 5 ∨ m = 8 ∨ m = 10 then 30
  else 31

/-- Normalize a date whose day may exceed the month length by rolling it
into the following month, exactly as a JS `Date` does. The inputs reaching
this function always come from a valid date (`day ≤ 31`), so the overflow
is at most 3 days and a single roll suffices. -/
def fixDay (y : Int) (m : Nat) (d : Nat) : Date :=
  if d ≤ daysInMonth y m then ⟨y, m, d⟩
  else if m = 11 then ⟨y + 1, 0, d - daysInMonth y m⟩
  else ⟨y, m + 1, d - daysInMonth y m⟩

/-- Models `endDate.setFullYear(endDate.getFullYear() + 1)` (source lines
388 and 445): same month and day one year later, day overflow rolled over
(Feb 29 becomes Mar 1 in the target common year). -/
def addYearJS (d : Date) : Date :=
  fixDay (d.year + 1) d.month d.day

/-- Models `endDate.setMonth(endDate.getMonth() + 1)` (source lines 390 and
447): next calendar month, day overflow rolled over. -/
def addMonthJS (d : Date) : Date :=
  if d.month = 11 then fixDay (d.year + 1) 0 d.day
  else fixDay d.year (d.month + 1) d.day

/-! ## Catalogs (source lines 27-41) -/

/-- One entry of `DISCOUNT_CODES`. Fields absent from a source object
literal (JS `undefined`) are `none` / `false`. -/
structure DiscountCode where
  name : String
  standard : Option Nat
  pro : Option Nat
  standardOnly : Bool
  proOnly : Bool
deriving DecidableEq, Repr

/-- The `DISCOUNT_CODES` table, keyed by code string. -/
def DISCOUNT_CODES : List (String × DiscountCode) :=
  [("DX9Q-7M2A-K8P4",
    { name := "DX9Q-7M2A-K8P4", standard := some 700000, pro := none,
      standardOnly := true, proOnly := false }),
   ("R5TQ-Z91L-A7XK",
    { name := "R5TQ-Z91L-A7XK", standard := some 700000, pro := none,
      standardOnly := true, proOnly := false }),
   ("MP8A-QX47-L9TZ",
    { name := "MP8A-QX47-L9TZ", standard := none, pro := some 1100000,
      standardOnly := false, proOnly := true }),
   ("K2Z9-PAX6-M7QF",
    { name := "K2Z9-PAX6-M7QF", standard := none, pro := some 1100000,
      standardOnly := false, proOnly := true })]

/-- The `BASE_PRICES` table (amounts in kobo, integer minor units). -/
def BASE_PRICES : List (String × Nat) :=
  [("standard_monthly", 1600000),
   ("standard_yearly", 17280000),
   ("pro_monthly", 2200000),
   ("pro_yearly", 23760000)]

/-- `BASE_PRICES[key]`, `none` when the key is absent (JS `undefined`,
falsy at source line 294). -/
def basePrice (key : String) : Option Nat :=
  (BASE_PRICES.find? (fun p => p.1 = key)).map (fun p => p.2)

/-- `DISCOUNT_CODES[code]`, `none` when the code is absent. -/
def lookupDiscount (code : String) : Option DiscountCode :=
  (DISCOUNT_CODES.find? (fun p => p.1 = code)).map (fun p => p.2)

/-- Models `Math.round(amount * 10.8)` (source lines 310 and 314) by exact
rational rounding: `round(n * 108 / 10)`, halves up, as `Math.round` does
for positive arguments. For both override amounts the source catalog can
feed it (700000 and 1100000) the product `n * 108` is a multiple of 10 and
the IEEE-754 double computation `Math.round(n * 10.8)` yields the same
integer. -/
def yearlyAmount (n : Nat) : Nat :=
  (n * 108 + 5) / 10

/-- The pricing step of POST /payment/initialize (source lines 291-318):
strip the `_discounted` suffix, reject unknown plans, apply a discount code
only when its tier flag matches the plan string. Returns
`(originalAmount, finalAmount, appliedDiscount)`, or `none` for an invalid
plan. In the source catalog every `standardOnly` entry defines `standard`
and every `proOnly` entry defines `pro`, so the `getD 0` default is never
used. -/
def priceQuote (plan : String) (discountCode : Option String) :
    Option (Nat × Nat × Option String) :=
  let planKey := replaceFirst plan "_discounted"
  match basePrice planKey with
  | none => none
  | some base =>
    match discountCode with
    | none => some (base, base, none)
    | some dc =>
      let code := jsToUpper dc
      match lookupDiscount code with
      | none => some (base, base, none)
      | some discount =>
        if strContains plan "standard" && discount.standardOnly then
          let a0 := discount.standard.getD 0
          let a := if strContains plan "yearly" then yearlyAmount a0 else a0
          some (base, a, some code)
        else if strContains plan "pro" && discount.proOnly then
          let a0 := discount.pro.getD 0
          let a := if strContains plan "yearly" then yearlyAmount a0 else a0
          some (base, a, some code)
        else some (base, base, none)

/-! ## Data model -/

/-- A row of the `users` table, as the handlers read and write it. -/
structure User where
  id : String
  email : String
  password : String
  full_name : String
  is_subscribed : Bool
deriving DecidableEq, Repr

/-- A row of the `subscriptions` table, with the columns the handlers
insert (source lines 396-405 and 453-462). -/
structure Subscription where
  user_id : String
  plan : String
  amount : Nat
  reference : String
  discount_code : Option String
  status : String
  start_date : Date
  end_date : Date
deriving DecidableEq, Repr

/-- The database state: both tables, rows in insertion order. -/
structure DB where
  users : List User
  subscriptions : List Subscription
deriving DecidableEq, Repr

/-- The `metadata` blob attached to a gateway transaction at initialization
(source lines 327-334): the Transaction Intent. -/
structure Metadata where
  userId : String
  fullName : String
  plan : String
  discountCode : Option String
  originalAmount : Nat
  finalAmount : Nat
deriving DecidableEq, Repr

/-- The gateway's transaction record, as both the verify response
(`response.data.data`) and the webhook payload (`event.data`) carry it. -/
structure GatewayData where
  status : String
  amount : Nat
  reference : String
  metadata : Metadata
deriving DecidableEq, Repr

/-- A webhook request body: `{ event, data }`. -/
structure WebhookEvent where
  event : String
  data : GatewayData
deriving DecidableEq, Repr

/-- The JSON reply of the verify endpoint, reduced to the HTTP status code
and the `success` flag. -/
structure HttpResponse where
  status : Nat
  success : Bool
deriving DecidableEq, Repr

/-- The plain-text reply of the webhook endpoint (`res.status(s).send(b)`). -/
structure RawResponse where
  status : Nat
  body : String
deriving DecidableEq, Repr

/-! ## Store operations -/

/-- Models `supabase.from('users').update({ is_subscribed: true }).eq('id',
uid)`: set the flag on every row whose id matches (a no-op when none does;
Supabase reports no error for zero matched rows). -/
def updateSubscribed (db : DB) (uid : String) : DB :=
  { db with
    users := db.users.map fun u =>
      if u.id = uid then { u with is_subscribed := true } else u }

/-- Models `supabase.from('subscriptions').insert([row])`: append the row.
The `subscriptions` table has no uniqueness constraint in the source, so
the insert always succeeds, duplicates included. -/
def insertSubscription (db : DB) (s : Subscription) : DB :=
  { db with subscriptions := db.subscriptions ++ [s] }

/-! ## Handlers -/

/-- GET /payment/verify/:reference (source lines 363-425), given the
caller's authenticated user id, the gateway's verify response for the
reference, and the current time `now` (the source calls `new Date()`; the
two calls in the handler are modelled as the same instant). Returns the
HTTP reply and the new database state. -/
def verifyHandler (now : Date) (caller : String) (reference : String)
    (resp : GatewayData) (db : DB) : HttpResponse × DB :=
  if resp.status = "success" then
    let metadata := resp.metadata
    let db1 := updateSubscribed db metadata.userId
    let endDate :=
      if strContains metadata.plan "yearly" then addYearJS now
      else addMonthJS now
    let db2 := insertSubscription db1
      { user_id := metadata.userId
        plan := metadata.plan
        amount := resp.amount
        reference := reference
        discount_code := metadata.discountCode
        status := "active"
        start_date := now
        end_date := endDate }
    (⟨200, true⟩, db2)
  else (⟨400, false⟩, db)

/-- POST /payment/webhook (source lines 428-471). `updateErr` and
`insertErr` model the Supabase client returning an error object for the
respective query (an errored query mutates nothing); the source never
inspects those return values and replies `200 OK` regardless. (The catch
branch replying 500 fires only for thrown exceptions, e.g. a payload with
no metadata, not for store errors, which the Supabase client returns
rather than throws.) -/
def webhookHandler (now : Date) (ev : WebhookEvent) (db : DB)
    (updateErr : Bool) (insertErr : Bool) : RawResponse × DB :=
  if ev.event = "charge.success" then
    let data := ev.data
    let metadata := data.metadata
    let db1 := if updateErr then db else updateSubscribed db metadata.userId
    let endDate :=
      if strContains metadata.plan "yearly" then addYearJS now
      else addMonthJS now
    let sub : Subscription :=
      { user_id := metadata.userId
        plan := metadata.plan
        amount := data.amount
        reference := data.reference
        discount_code := metadata.discountCode
        status := "active"
        start_date := now
        end_date := endDate }
    let db2 := if insertErr then db1 else insertSubscription db1 sub
    (⟨200, "OK"⟩, db2)
  else (⟨200, "OK"⟩, db)

/-- Outcome of POST /payment/initialize, up to the gateway initiate call:
either an early error reply, or the initiate request that is sent to the
gateway (the client reply after that point depends only on the gateway's
answer and mutates no state). -/
inductive InitResult where
  | userNotFound
  | invalidPlan
  | gatewayCalled (email : String) (amount : Nat) (metadata : Metadata)
deriving DecidableEq, Repr

/-- POST /payment/initialize (source lines 275-360): look up the caller,
price the plan via `priceQuote`, and build the gateway initiate request
carrying the Transaction Intent as metadata. Returns the outcome and the
(unchanged) database state. -/
def initializeHandler (db : DB) (callerId : String) (plan : String)
    (discountCode : Option String) : InitResult × DB :=
  match db.users.find? (fun u => u.id = callerId) with
  | none => (InitResult.userNotFound, db)
  | some user =>
    match priceQuote plan discountCode with
    | none => (InitResult.invalidPlan, db)
    | some (base, amount, applied) =>
      (InitResult.gatewayCalled user.email amount
        { userId := user.id
          fullName := user.full_name
          plan := plan
          discountCode := applied
          originalAmount := base
          finalAmount := amount }, db)

/-! ## Concrete inputs used by witnesses and counterexamples -/

/-- A registered user whose flag starts false. -/
def userW : User :=
  { id := "u1", email := "ada@example.com", password := "hash1",
    full_name := "Ada", is_subscribed := false }

/-- A one-user database with no subscriptions. -/
def dbW : DB := { users := [userW], subscriptions := [] }

/-- A Transaction Intent for a discounted yearly standard plan. -/
def metaW : Metadata :=
  { userId := "u1", fullName := "Ada", plan := "standard_yearly",
    discountCode := some "DX9Q-7M2A-K8P4", originalAmount := 17280000,
    finalAmount := 7560000 }

/-- A successful gateway record for reference `ref1` carrying `metaW`. -/
def respW : GatewayData :=
  { status := "success", amount := 7560000, reference := "ref1",
    metadata := metaW }

/-- 2024-02-29 (JavaScript months are 0-based: month 1 is February). -/
def nowW : Date := ⟨2024, 1, 29⟩

/-- The subscriptions stored for a given gateway reference. -/
def subsFor (db : DB) (r : String) : List Subscription :=
  db.subscriptions.filter fun s => s.reference = r

/-- The stored `is_subscribed` flag of a user id, if the user exists. -/
def userFlag (db : DB) (uid : String) : Option Bool :=
  (db.users.find? (fun u => u.id = uid)).map fun u => u.is_subscribed

/-- Database after a first reconciliation of `ref1` via the verify path. -/
def dbAfterFirst : DB := (verifyHandler nowW "u1" "ref1" respW dbW).2

/-- Database after a second reconciliation of the same `ref1` via the
webhook path (success status both times, no store errors). -/
def dbAfterSecond : DB :=
  (webhookHandler nowW ⟨"charge.success", respW⟩ dbAfterFirst false false).2

/-- A gateway record whose reported `amount` differs from the intent's
`finalAmount` (7560000 in the metadata, 650000 reported). -/
def respBad : GatewayData := { respW with amount := 650000 }

/-- A gateway verify response with a non-success status. -/
def respFail : GatewayData := { respW with status := "failed" }

/-- An intent whose `userId` matches no user of `dbW`. -/
def metaGhost : Metadata := { metaW with userId := "ghost" }

/-- A successful gateway record carrying `metaGhost`. -/
def respGhost : GatewayData := { respW with metadata := metaGhost }

/-! ## Theorems -/

/-- C1: reconciling the same gateway reference twice (success status both
times, here once through the verify path and once through the webhook
path) leaves the user's subscribed flag true after the first call and
unchanged by the second — but it stores TWO Subscription records for the
reference, not one: the source has no reference-uniqueness guard, so the
second invocation inserts a duplicate row. This contradicts the claimed
"exactly one Subscription record". -/
theorem claim_C1_double_reconcile :
    (subsFor dbAfterFirst "ref1").length = 1 ∧
    userFlag dbAfterFirst "u1" = some true ∧
    (subsFor dbAfterSecond "ref1").length = 2 ∧
    userFlag dbAfterSecond "u1" = some true := by decide

/-- C2, counterexample: at a gateway record whose reported `amount`
(650000) differs from the intent's `finalAmount` (7560000), the created
Subscription stores the gateway-reported amount, so its amount-paid field
does not equal the intent's field, refuting the claim as stated. -/
theorem claim_C2_counterexample :
    ((verifyHandler nowW "u1" "ref1" respBad dbW).2.subscriptions.map
      fun s => s.amount) = [650000] ∧
    respBad.metadata.finalAmount = 7560000 ∧
    ((verifyHandler nowW "u1" "ref1" respBad dbW).2.subscriptions.map
      fun s => s.amount) ≠ [respBad.metadata.finalAmount] := by decide

/-- C2, amended: for every successful reconciliation on either path, the
created Subscription's plan and discount-code fields equal the intent's
fields and its amount field equals the gateway record's reported amount;
the statement holds for arbitrary metadata and plan strings, so none of
the three is re-derived from the plan or discount catalogs. -/
theorem claim_C2_amended (now : Date) (caller reference : String)
    (resp : GatewayData) (db : DB) (hs : resp.status = "success") :
    ((verifyHandler now caller reference resp db).2.subscriptions.getLast?.map
        fun s => (s.plan, s.amount, s.discount_code))
      = some (resp.metadata.plan, resp.amount, resp.metadata.discountCode) ∧
    ((webhookHandler now ⟨"charge.success", resp⟩ db false false).2.subscriptions.getLast?.map
        fun s => (s.plan, s.amount, s.discount_code))
      = some (resp.metadata.plan, resp.amount, resp.metadata.discountCode) := by
  constructor <;>
    simp [verifyHandler, webhookHandler, hs, insertSubscription, updateSubscribed]

/-- C2 witness: the amended claim applied to the concrete record `respW`. -/
theorem claim_C2_amended_witness :
    respW.status = "success" ∧
    (((verifyHandler nowW "u1" "ref1" respW dbW).2.subscriptions.getLast?.map
        fun s => (s.plan, s.amount, s.discount_code))
      = some (respW.metadata.plan, respW.amount, respW.metadata.discountCode) ∧
     ((webhookHandler nowW ⟨"charge.success", respW⟩ dbW false false).2.subscriptions.getLast?.map
        fun s => (s.plan, s.amount, s.discount_code))
      = some (respW.metadata.plan, respW.amount, respW.metadata.discountCode)) :=
  ⟨rfl, claim_C2_amended nowW "u1" "ref1" respW dbW rfl⟩

/-- C3: the webhook endpoint replies `200 OK` for every request, whatever
the store-error flags; in particular when both the user-flag update and
the subscription insert fail (leaving the database unchanged) it still
reports success to the gateway. -/
theorem claim_C3_webhook_always_ok (now : Date) (ev : WebhookEvent)
    (db : DB) (updateErr insertErr : Bool) :
    (webhookHandler now ev db updateErr insertErr).1 = ⟨200, "OK"⟩ ∧
    (webhookHandler now ev db true true).2 = db := by
  unfold webhookHandler
  constructor <;> split <;> rfl

/-- C4: for each of the eight catalog plan / discount code pairs whose
tier restriction matches the plan's tier, the pricing step returns the
code's monthly override for monthly plans and `round(override * 10.8)` for
yearly plans; in particular the standard override 700000 on the monthly
standard plan (base 1600000) gives 700000, and on the yearly plan gives
7560000. -/
theorem claim_C4_discount_pricing :
    priceQuote "standard_monthly" (some "DX9Q-7M2A-K8P4")
      = some (1600000, 700000, some "DX9Q-7M2A-K8P4") ∧
    priceQuote "standard_yearly" (some "DX9Q-7M2A-K8P4")
      = some (17280000, 7560000, some "DX9Q-7M2A-K8P4") ∧
    priceQuote "standard_monthly" (some "R5TQ-Z91L-A7XK")
      = some (1600000, 700000, some "R5TQ-Z91L-A7XK") ∧
    priceQuote "standard_yearly" (some "R5TQ-Z91L-A7XK")
      = some (17280000, 7560000, some "R5TQ-Z91L-A7XK") ∧
    priceQuote "pro_monthly" (some "MP8A-QX47-L9TZ")
      = some (2200000, 1100000, some "MP8A-QX47-L9TZ") ∧
    priceQuote "pro_yearly" (some "MP8A-QX47-L9TZ")
      = some (23760000, 11880000, some "MP8A-QX47-L9TZ") ∧
    priceQuote "pro_monthly" (some "K2Z9-PAX6-M7QF")
      = some (2200000, 1100000, some "K2Z9-PAX6-M7QF") ∧
    priceQuote "pro_yearly" (some "K2Z9-PAX6-M7QF")
      = some (23760000, 11880000, some "K2Z9-PAX6-M7QF") ∧
    yearlyAmount 700000 = 7560000 ∧
    yearlyAmount 1100000 = 11880000 := by
  refine ⟨?_, ?_, ?_, ?_, ?_, ?_, ?_, ?_, ?_, ?_⟩ <;> decide

/-- C5: every Subscription created by a successful reconciliation (either
path) has `start_date = now` and `end_date` equal to `now` plus one
calendar year for yearly plans, one calendar month otherwise, using the
JS rollover semantics embedded in `addYearJS` / `addMonthJS`; and at
2024-02-29 the yearly end date is the single defined date 2025-03-01. -/
theorem claim_C5_end_date (now : Date) (caller reference : String)
    (resp : GatewayData) (db : DB) (hs : resp.status = "success") :
    ((verifyHandler now caller reference resp db).2.subscriptions.getLast?.map
        fun s => (s.start_date, s.end_date))
      = some (now, if strContains resp.metadata.plan "yearly"
                   then addYearJS now else addMonthJS now) ∧
    ((webhookHandler now ⟨"charge.success", resp⟩ db false false).2.subscriptions.getLast?.map
        fun s => (s.start_date, s.end_date))
      = some (now, if strContains resp.metadata.plan "yearly"
                   then addYearJS now else addMonthJS now) ∧
    addYearJS ⟨2024, 1, 29⟩ = ⟨2025, 2, 1⟩ := by
  refine ⟨?_, ?_, by decide⟩ <;>
    simp [verifyHandler, webhookHandler, hs, insertSubscription, updateSubscribed]

/-- C5 witness: the yearly plan of `respW` activated on 2024-02-29 ends on
2025-03-01. -/
theorem claim_C5_end_date_witness :
    respW.status = "success" ∧
    (((verifyHandler nowW "u1" "ref1" respW dbW).2.subscriptions.getLast?.map
        fun s => (s.start_date, s.end_date))
      = some (nowW, if strContains respW.metadata.plan "yearly"
                    then addYearJS nowW else addMonthJS nowW) ∧
     ((webhookHandler nowW ⟨"charge.success", respW⟩ dbW false false).2.subscriptions.getLast?.map
        fun s => (s.start_date, s.end_date))
      = some (nowW, if strContains respW.metadata.plan "yearly"
                    then addYearJS nowW else addMonthJS nowW) ∧
     addYearJS ⟨2024, 1, 29⟩ = ⟨2025, 2, 1⟩) :=
  ⟨rfl, claim_C5_end_date nowW "u1" "ref1" respW dbW rfl⟩

/-- C6: for each of the eight catalog plan / discount code pairs whose
tier restriction does NOT match the plan's tier, pricing succeeds with
`finalAmount = originalAmount` and no applied discount (the code is
silently ignored, no error). -/
theorem claim_C6_tier_mismatch :
    priceQuote "standard_monthly" (some "MP8A-QX47-L9TZ")
      = some (1600000, 1600000, none) ∧
    priceQuote "standard_yearly" (some "MP8A-QX47-L9TZ")
      = some (17280000, 17280000, none) ∧
    priceQuote "standard_monthly" (some "K2Z9-PAX6-M7QF")
      = some (1600000, 1600000, none) ∧
    priceQuote "standard_yearly" (some "K2Z9-PAX6-M7QF")
      = some (17280000, 17280000, none) ∧
    priceQuote "pro_monthly" (some "DX9Q-7M2A-K8P4")
      = some (2200000, 2200000, none) ∧
    priceQuote "pro_yearly" (some "DX9Q-7M2A-K8P4")
      = some (23760000, 23760000, none) ∧
    priceQuote "pro_monthly" (some "R5TQ-Z91L-A7XK")
      = some (2200000, 2200000, none) ∧
    priceQuote "pro_yearly" (some "R5TQ-Z91L-A7XK")
      = some (23760000, 23760000, none) := by
  refine ⟨?_, ?_, ?_, ?_, ?_, ?_, ?_, ?_⟩ <;> decide

/-- C7: when the caller's user record exists and the canonical plan key
(after stripping the `_discounted` suffix) has no base price, payment
initialization returns the invalid-plan validation error with the
database unchanged, and the result is not a gateway initiate call. -/
theorem claim_C7_invalid_plan (db : DB) (callerId plan : String)
    (dc : Option String)
    (hu : (db.users.find? (fun u => u.id = callerId)).isSome)
    (hp : basePrice (replaceFirst plan "_discounted") = none) :
    initializeHandler db callerId plan dc = (InitResult.invalidPlan, db) := by
  obtain ⟨user, hfind⟩ := Option.isSome_iff_exists.mp hu
  unfold initializeHandler priceQuote
  rw [hfind]
  simp only [hp]

/-- C7 witness: the unknown plan `gold_monthly` submitted by the existing
user `u1`. -/
theorem claim_C7_invalid_plan_witness :
    ((dbW.users.find? (fun u => u.id = "u1")).isSome ∧
     basePrice (replaceFirst "gold_monthly" "_discounted") = none) ∧
    initializeHandler dbW "u1" "gold_monthly" none
      = (InitResult.invalidPlan, dbW) :=
  ⟨⟨by decide, by decide⟩,
   claim_C7_invalid_plan dbW "u1" "gold_monthly" none (by decide) (by decide)⟩

/-- C8: when the gateway verify response reports any status other than
`success`, the verify path replies 400 (payment verification failed) and
returns the database unchanged: no subscription row and no flag change. -/
theorem claim_C8_verify_failure (now : Date) (caller reference : String)
    (resp : GatewayData) (db : DB) (hs : resp.status ≠ "success") :
    verifyHandler now caller reference resp db = (⟨400, false⟩, db) := by
  simp [verifyHandler, hs]

/-- C8 witness: the failed record `respFail`. -/
theorem claim_C8_verify_failure_witness :
    respFail.status ≠ "success" ∧
    verifyHandler nowW "u1" "ref1" respFail dbW = (⟨400, false⟩, dbW) :=
  ⟨by decide, claim_C8_verify_failure nowW "u1" "ref1" respFail dbW (by decide)⟩

/-- C9: for a fixed reference, gateway response, time and database, the
verify path produces identical replies and identical database states for
any two authenticated callers: the handler never reads the caller's
identity, activating only the `userId` carried in the gateway metadata. -/
theorem claim_C9_caller_independent (now : Date) (caller1 caller2 reference : String)
    (resp : GatewayData) (db : DB) :
    verifyHandler now caller1 reference resp db
      = verifyHandler now caller2 reference resp db := rfl

/-- Auxiliary: updating the subscribed flag for an id no user has is the
identity on the database. -/
theorem updateSubscribed_no_match (db : DB) (uid : String)
    (h : ∀ u ∈ db.users, u.id ≠ uid) :
    updateSubscribed db uid = db := by
  unfold updateSubscribed
  cases db with
  | mk users subs =>
    simp only [DB.mk.injEq, and_true]
    induction users with
    | nil => rfl
    | cons u us ih =>
      simp only [List.map_cons, if_neg (h u (by simp)), List.cons.injEq, true_and]
      exact ih fun v hv => h v (by simp [hv])

/-- C10: when the metadata's `userId` matches no user in the database,
both reconciliation paths still report success and still insert the
Subscription row for that ghost id, leaving the users table unchanged:
neither path checks that the user exists. -/
theorem claim_C10_ghost_user (now : Date) (caller reference : String)
    (resp : GatewayData) (db : DB)
    (hu : ∀ u ∈ db.users, u.id ≠ resp.metadata.userId)
    (hs : resp.status = "success") :
    (verifyHandler now caller reference resp db).1 = ⟨200, true⟩ ∧
    (verifyHandler now caller reference resp db).2.users = db.users ∧
    ((verifyHandler now caller reference resp db).2.subscriptions.map
        fun s => s.user_id)
      = (db.subscriptions.map fun s => s.user_id) ++ [resp.metadata.userId] ∧
    (webhookHandler now ⟨"charge.success", resp⟩ db false false).1 = ⟨200, "OK"⟩ ∧
    (webhookHandler now ⟨"charge.success", resp⟩ db false false).2.users = db.users ∧
    ((webhookHandler now ⟨"charge.success", resp⟩ db false false).2.subscriptions.map
        fun s => s.user_id)
      = (db.subscriptions.map fun s => s.user_id) ++ [resp.metadata.userId] := by
  have hupd := updateSubscribed_no_match db resp.metadata.userId hu
  refine ⟨?_, ?_, ?_, ?_, ?_, ?_⟩ <;>
    simp [verifyHandler, webhookHandler, hs, insertSubscription, hupd]

/-- C10 witness: the ghost intent `respGhost` against the one-user
database `dbW`. -/
theorem claim_C10_ghost_user_witness :
    ((∀ u ∈ dbW.users, u.id ≠ respGhost.metadata.userId) ∧
     respGhost.status = "success") ∧
    ((verifyHandler nowW "u1" "ref1" respGhost dbW).1 = ⟨200, true⟩ ∧
     (verifyHandler nowW "u1" "ref1" respGhost dbW).2.users = dbW.users ∧
     ((verifyHandler nowW "u1" "ref1" respGhost dbW).2.subscriptions.map
        fun s => s.user_id)
      = (dbW.subscriptions.map fun s => s.user_id) ++ [respGhost.metadata.userId] ∧
     (webhookHandler nowW ⟨"charge.success", respGhost⟩ dbW false false).1 = ⟨200, "OK"⟩ ∧
     (webhookHandler nowW ⟨"charge.success", respGhost⟩ dbW false false).2.users = dbW.users ∧
     ((webhookHandler nowW ⟨"charge.success", respGhost⟩ dbW false false).2.subscriptions.map
        fun s => s.user_id)
      = (dbW.subscriptions.map fun s => s.user_id) ++ [respGhost.metadata.userId]) :=
  ⟨⟨by decide, rfl⟩,
   claim_C10_ghost_user nowW "u1" "ref1" respGhost dbW (by decide) rfl⟩

end MZone
